import Mathlib

/-!
Verification of the BGE-M3 embedding server (src/bge-server/server.py).

The server is a Flask app with three endpoints: GET /health, POST /embed and
POST /embed/single.  The handlers are shallowly embedded as pure Lean
functions.  The external embedding model (`model.encode` followed by the
extraction `result["dense_vecs"].tolist()`) is an abstract parameter
`encode : List Json → Option Nat → Nat → Except String (List V)`, taking the
input texts, the optional `batch_size` keyword argument (`none` when the call
site does not pass one) and the `max_length` argument, and returning either a
list of dense vectors or an exception message.  Each handler returns the HTTP
response together with the list of model invocations it performed, so that
"the model is not invoked" is directly observable.

Python semantics needed by the handlers is embedded explicitly:
truthiness of `not data`, the `in` operator (key lookup for dicts, element
membership for lists, substring test for strings, TypeError otherwise),
subscripting `data["texts"]`, and `int()` applied to an environment-variable
string.  JSON numbers are modelled as integers; no claim depends on
non-integer numbers.  `request.get_json()` is modelled as an
`Except String (Option Json)` handler argument: the handlers call it with
its default `silent=False`, so a body that does not decode as JSON makes it
raise (BadRequest, or UnsupportedMediaType for a non-JSON content type on
Flask ≥ 2.1) inside the handler's `try` block — `Except.error msg` with the
exception's message — while `Except.ok none` is a `None` return value (a
JSON `null` body) and `Except.ok (some j)` a parsed value.
`os.environ.get("MAX_BATCH_SIZE", 32)` is an `Option String` handler
argument, read at each request exactly as in the source.
-/

namespace BGEServer

/-- JSON values, as produced by `request.get_json()`.  Objects are ordered
association lists (Python dicts from `json` parsing have unique keys, so
first-match lookup agrees with dict lookup). -/
inductive Json where
  | null : Json
  | bool (b : Bool) : Json
  | num (n : Int) : Json
  | str (s : String) : Json
  | arr (elems : List Json) : Json
  | obj (fields : List (String × Json)) : Json

/-- Python truthiness of a JSON value: `not data` is true exactly when this
is `false` (None, False, 0, "", [], {} are falsy). -/
def Json.truthy : Json → Bool
  | .null => false
  | .bool b => b
  | .num n => n != 0
  | .str s => s != ""
  | .arr xs => !xs.isEmpty
  | .obj kvs => !kvs.isEmpty

/-- `isinstance(x, list)`. -/
def Json.isArr : Json → Bool
  | .arr _ => true
  | _ => false

/-- `isinstance(x, str)`. -/
def Json.isStr : Json → Bool
  | .str _ => true
  | _ => false

/-- The Python type name of a JSON value, as it appears in TypeError
messages. -/
def Json.pyTypeName : Json → String
  | .null => "NoneType"
  | .bool _ => "bool"
  | .num _ => "int"
  | .str _ => "str"
  | .arr _ => "list"
  | .obj _ => "dict"

/-- Decidable substring test, used for Python's `key in someString`.
`s.splitOn key` has at least two chunks exactly when the non-empty `key`
occurs in `s`; the empty string is a substring of everything. -/
def strContainsB (s key : String) : Bool :=
  key == "" || decide ((s.splitOn key).length ≥ 2)

/-- `key in data` for a Python/JSON value `data`: dict key lookup, list
element membership, substring test on strings; TypeError (modelled as
`Except.error`) on non-iterable values such as numbers, booleans and None. -/
def pyContains (key : String) : Json → Except String Bool
  | .obj kvs => .ok (kvs.find? (fun kv => kv.1 == key)).isSome
  | .arr xs =>
    .ok (xs.any (fun j => match j with | .str s => s == key | _ => false))
  | .str s => .ok (strContainsB s key)
  | j => .error ("argument of type \x27" ++ j.pyTypeName ++ "\x27 is not iterable")

/-- `data[key]` for a string key: dict lookup (KeyError when absent),
TypeError on strings, lists and other values. -/
def pyGetItem (key : String) : Json → Except String Json
  | .obj kvs =>
    match kvs.find? (fun kv => kv.1 == key) with
    | some kv => .ok kv.2
    | none => .error ("KeyError: \x27" ++ key ++ "\x27")
  | .str _ => .error "string indices must be integers"
  | .arr _ => .error "list indices must be integers or slices, not str"
  | j => .error ("\x27" ++ j.pyTypeName ++ "\x27 object is not subscriptable")

/-- Digits of a decimal literal folded into a `Nat`; `none` when the list is
empty or contains a non-digit. -/
def digitsVal? (cs : List Char) : Option Nat :=
  if cs.isEmpty then none
  else if cs.all Char.isDigit then
    some (cs.foldl (fun a c => a * 10 + (c.toNat - 48)) 0)
  else none

/-- Whitespace stripped from both ends of a character list (the whitespace
stripping `int()` performs on its string argument). -/
def trimChars (cs : List Char) : List Char :=
  ((cs.dropWhile Char.isWhitespace).reverse.dropWhile Char.isWhitespace).reverse

/-- Python `int()` applied to a string: optional surrounding whitespace,
optional sign, then decimal digits; anything else raises ValueError
(modelled as `Except.error`).  Underscore digit separators are not
modelled; no claim depends on them. -/
def pyIntOfString (s : String) : Except String Int :=
  let bad : Except String Int :=
    .error ("invalid literal for int() with base 10: \x27" ++ s ++ "\x27")
  match trimChars s.data with
  | '-' :: rest =>
    match digitsVal? rest with
    | some n => .ok (-(n : Int))
    | none => bad
  | '+' :: rest =>
    match digitsVal? rest with
    | some n => .ok (n : Int)
    | none => bad
  | cs =>
    match digitsVal? cs with
    | some n => .ok (n : Int)
    | none => bad

/-- `int(os.environ.get("MAX_BATCH_SIZE", 32))`: the default 32 when the
variable is unset, otherwise the Python `int()` parse of its value
(which may raise). -/
def getMaxBatch (env : Option String) : Except String Int :=
  match env with
  | none => .ok 32
  | some s => pyIntOfString s

/-- One invocation of `model.encode`: the texts argument, the optional
`batch_size` keyword (`none` when the call site leaves it to the model's
default) and the `max_length` keyword. -/
structure ModelCall where
  texts : List Json
  batchSize : Option Nat
  maxLength : Nat

/-- The abstract model: `model.encode(texts, batch_size?, max_length)`
followed by `result["dense_vecs"].tolist()`.  An `Except.error` is an
exception raised during inference. -/
def EncodeFn (V : Type) : Type :=
  List Json → Option Nat → Nat → Except String (List V)

/-- Body of an HTTP response of this service. -/
inductive RespBody (V : Type) where
  | embeddings (vecs : List V) : RespBody V
  | embedding (vec : V) : RespBody V
  | jsonError (msg : String) : RespBody V
  | healthOk : RespBody V

/-- An HTTP response: status code and JSON body. -/
structure Response (V : Type) where
  status : Nat
  body : RespBody V

/-- Error message of `jsonify({"error": "Missing 'texts' field"}), 400`. -/
def missingTextsMsg : String := "Missing \x27texts\x27 field"

/-- Error message of `jsonify({"error": "'texts' must be a list"}), 400`. -/
def textsNotListMsg : String := "\x27texts\x27 must be a list"

/-- Error message of `jsonify({"error": "Missing 'text' field"}), 400`. -/
def missingTextMsg : String := "Missing \x27text\x27 field"

/-- Error message of `jsonify({"error": "'text' must be a string"}), 400`. -/
def textNotStringMsg : String := "\x27text\x27 must be a string"

/-- The batch-size error message
`f"Batch size {len(texts)} exceeds maximum {max_batch}"`. -/
def batchTooLargeMsg (n : Nat) (m : Int) : String :=
  "Batch size " ++ toString n ++ " exceeds maximum " ++ toString m

/-- The numpy IndexError message raised by `result["dense_vecs"][0]` when
the model returns no vectors. -/
def indexErrorMsg : String := "index 0 is out of bounds for axis 0 with size 0"

/-- `GET /health`: always `{"status": "ok"}` with 200, no model call. -/
def health {V : Type} : Response V × List ModelCall :=
  (⟨200, .healthOk⟩, [])

/-- `POST /embed` (function `embed` of server.py, lines 36–81).  `encode` is
the loaded model, `env` the value of the MAX_BATCH_SIZE environment variable
at the time of the request, `body` the outcome of `request.get_json()`:
`Except.error msg` when it raises (unparseable body — the raise happens
inside the `try`, so the catch-all answers 500), `Except.ok none` when it
returns `None`, `Except.ok (some j)` when it returns a parsed value.
Returns the response and the model calls made.  The whole handler body sits
in a `try`/`except Exception` that turns any exception `e` into
`jsonify({"error": str(e)}), 500`. -/
def embed {V : Type} (encode : EncodeFn V) (env : Option String)
    (body : Except String (Option Json)) : Response V × List ModelCall :=
  match body with
  | .error e => (⟨500, .jsonError e⟩, [])
  | .ok none => (⟨400, .jsonError missingTextsMsg⟩, [])
  | .ok (some data) =>
    if !data.truthy then (⟨400, .jsonError missingTextsMsg⟩, [])
    else
      match pyContains "texts" data with
      | .error e => (⟨500, .jsonError e⟩, [])
      | .ok false => (⟨400, .jsonError missingTextsMsg⟩, [])
      | .ok true =>
        match pyGetItem "texts" data with
        | .error e => (⟨500, .jsonError e⟩, [])
        | .ok (.arr ts) =>
          if ts.isEmpty then (⟨200, .embeddings []⟩, [])
          else
            match getMaxBatch env with
            | .error e => (⟨500, .jsonError e⟩, [])
            | .ok maxBatch =>
              if (ts.length : Int) > maxBatch then
                (⟨400, .jsonError (batchTooLargeMsg ts.length maxBatch)⟩, [])
              else
                match encode ts (some (min ts.length 8)) 512 with
                | .error e =>
                  (⟨500, .jsonError e⟩, [⟨ts, some (min ts.length 8), 512⟩])
                | .ok vecs =>
                  (⟨200, .embeddings vecs⟩, [⟨ts, some (min ts.length 8), 512⟩])
        | .ok _ => (⟨400, .jsonError textsNotListMsg⟩, [])

/-- `POST /embed/single` (function `embed_single` of server.py, lines
84–112).  `body` models `request.get_json()` as in `embed`.
`model.encode([text], max_length=512)` passes no `batch_size`, and
the handler takes element 0 of the returned vectors (IndexError, hence a
500, when the model returns none). -/
def embed_single {V : Type} (encode : EncodeFn V)
    (body : Except String (Option Json)) : Response V × List ModelCall :=
  match body with
  | .error e => (⟨500, .jsonError e⟩, [])
  | .ok none => (⟨400, .jsonError missingTextMsg⟩, [])
  | .ok (some data) =>
    if !data.truthy then (⟨400, .jsonError missingTextMsg⟩, [])
    else
      match pyContains "text" data with
      | .error e => (⟨500, .jsonError e⟩, [])
      | .ok false => (⟨400, .jsonError missingTextMsg⟩, [])
      | .ok true =>
        match pyGetItem "text" data with
        | .error e => (⟨500, .jsonError e⟩, [])
        | .ok (.str t) =>
          match encode [Json.str t] none 512 with
          | .error e => (⟨500, .jsonError e⟩, [⟨[Json.str t], none, 512⟩])
          | .ok [] => (⟨500, .jsonError indexErrorMsg⟩, [⟨[Json.str t], none, 512⟩])
          | .ok (v :: _) => (⟨200, .embedding v⟩, [⟨[Json.str t], none, 512⟩])
        | .ok _ => (⟨400, .jsonError textNotStringMsg⟩, [])

/-- Substring containment, stated as a decomposition. -/
def strContains (s key : String) : Prop :=
  ∃ p q, s = p ++ key ++ q

theorem isEmpty_false_of_find?_some {α : Type} {p : α → Bool} {l : List α}
    {x : α} (h : l.find? p = some x) : l.isEmpty = false := by
  cases l with
  | nil => simp [List.find?] at h
  | cons a l => rfl

theorem map_str_isEmpty_false {ss : List String} (h : ss ≠ []) :
    (ss.map Json.str).isEmpty = false := by
  cases ss with
  | nil => exact absurd rfl h
  | cons a l => rfl

/-- Claim C1: for every valid request to /embed whose body is a JSON object
with a "texts" field holding a non-empty list of strings of length at most
the configured maximum batch size, the handler returns status 200 with an
"embeddings" field holding exactly the model's output sequence, which (by
the stated assumption on the model) has the same length as the input, with
position i of the output being the model's vector for position i of the
input. -/
theorem embed_batch_length_order {V : Type} (encode : EncodeFn V)
    (env : Option String) (kvs : List (String × Json)) (ss : List String)
    (vecs : List V) (m : Int)
    (hfind : kvs.find? (fun kv => kv.1 == "texts")
      = some ("texts", Json.arr (ss.map Json.str)))
    (hne : ss ≠ [])
    (henv : getMaxBatch env = Except.ok m)
    (hlen : (ss.length : Int) ≤ m)
    (henc : encode (ss.map Json.str) (some (min ss.length 8)) 512
      = Except.ok vecs)
    (hvecs : vecs.length = ss.length) :
    (embed encode env (Except.ok (some (Json.obj kvs)))).1
      = ⟨200, RespBody.embeddings vecs⟩ ∧ vecs.length = ss.length := by
  have hkvs := isEmpty_false_of_find?_some hfind
  have hts := map_str_isEmpty_false hne
  have hgt : ¬(m < (ss.length : Int)) := not_lt.mpr hlen
  refine ⟨?_, hvecs⟩
  simp [embed, Json.truthy, pyContains, pyGetItem, hfind, hkvs, hts, henv,
    hgt, List.length_map, henc]

theorem embed_batch_length_order_witness :
    (embed (V := Nat) (fun _ _ _ => Except.ok [10, 20]) none
        (Except.ok (some (Json.obj [("texts", Json.arr [Json.str "a", Json.str "b"])])))).1
      = ⟨200, RespBody.embeddings [10, 20]⟩
      ∧ ([10, 20] : List Nat).length = (["a", "b"] : List String).length :=
  embed_batch_length_order (fun _ _ _ => Except.ok [10, 20]) none
    [("texts", Json.arr [Json.str "a", Json.str "b"])] ["a", "b"] [10, 20] 32
    rfl (by simp) rfl (by norm_num) rfl rfl

/-- Claim C4: a request whose "texts" field is the empty list gets status
200 with an empty embeddings list, without any model invocation, and this
holds for every state of the MAX_BATCH_SIZE environment variable (even an
unparseable one), because the short circuit happens before the batch limit
is read and checked. -/
theorem embed_empty_short_circuit {V : Type} (encode : EncodeFn V)
    (env : Option String) (kvs : List (String × Json))
    (hfind : kvs.find? (fun kv => kv.1 == "texts")
      = some ("texts", Json.arr [])) :
    embed encode env (Except.ok (some (Json.obj kvs)))
      = (⟨200, RespBody.embeddings []⟩, []) := by
  have hkvs := isEmpty_false_of_find?_some hfind
  simp [embed, Json.truthy, pyContains, pyGetItem, hfind, hkvs]

theorem embed_empty_short_circuit_witness :
    embed (V := Nat) (fun _ _ _ => Except.ok [10]) (some "not a number")
        (Except.ok (some (Json.obj [("texts", Json.arr [])])))
      = (⟨200, RespBody.embeddings []⟩, []) :=
  embed_empty_short_circuit (fun _ _ _ => Except.ok [10]) (some "not a number")
    [("texts", Json.arr [])] rfl

/-- Claim C3: a request whose "texts" field is a list longer than the
configured maximum batch size (the parse of MAX_BATCH_SIZE, default 32)
returns status 400 with a message containing both the requested length and
the configured maximum, and the model is not invoked. -/
theorem embed_batch_too_large {V : Type} (encode : EncodeFn V)
    (env : Option String) (kvs : List (String × Json)) (ts : List Json)
    (m : Int)
    (hfind : kvs.find? (fun kv => kv.1 == "texts")
      = some ("texts", Json.arr ts))
    (henv : getMaxBatch env = Except.ok m)
    (hm : 0 ≤ m)
    (hlen : (ts.length : Int) > m) :
    (embed encode env (Except.ok (some (Json.obj kvs)))).1
        = ⟨400, RespBody.jsonError (batchTooLargeMsg ts.length m)⟩
      ∧ strContains (batchTooLargeMsg ts.length m) (toString ts.length)
      ∧ strContains (batchTooLargeMsg ts.length m) (toString m)
      ∧ (embed encode env (Except.ok (some (Json.obj kvs)))).2 = [] := by
  have hkvs := isEmpty_false_of_find?_some hfind
  have hpos : (0 : Int) < (ts.length : Int) := lt_of_le_of_lt hm hlen
  have hts : ts.isEmpty = false := by
    cases ts with
    | nil => simp at hpos
    | cons a l => rfl
  refine ⟨?_, ?_, ?_, ?_⟩
  · simp [embed, Json.truthy, pyContains, pyGetItem, hfind, hkvs, hts, henv,
      hlen]
  · exact ⟨"Batch size ", " exceeds maximum " ++ toString m, by
      simp [batchTooLargeMsg, String.append_assoc]⟩
  · exact ⟨"Batch size " ++ toString ts.length ++ " exceeds maximum ", "", by
      simp [batchTooLargeMsg, String.append_assoc, String.append_empty]⟩
  · simp [embed, Json.truthy, pyContains, pyGetItem, hfind, hkvs, hts, henv,
      hlen]

theorem embed_batch_too_large_witness :
    (embed (V := Nat) (fun _ _ _ => Except.ok []) none
        (Except.ok (some (Json.obj [("texts", Json.arr (List.replicate 33 (Json.str "x")))])))).1
        = ⟨400, RespBody.jsonError (batchTooLargeMsg 33 32)⟩
      ∧ strContains (batchTooLargeMsg 33 32) (toString (33 : Nat))
      ∧ strContains (batchTooLargeMsg 33 32) (toString (32 : Int))
      ∧ (embed (V := Nat) (fun _ _ _ => Except.ok []) none
          (Except.ok (some (Json.obj [("texts", Json.arr (List.replicate 33 (Json.str "x")))])))).2
        = [] := by
  have h := embed_batch_too_large (V := Nat) (fun _ _ _ => Except.ok []) none
    [("texts", Json.arr (List.replicate 33 (Json.str "x")))]
    (List.replicate 33 (Json.str "x")) 32 rfl rfl (by norm_num) (by simp)
  simpa using h

theorem isEmpty_false_of_ne_nil {α : Type} {l : List α} (h : l ≠ []) :
    l.isEmpty = false := by
  cases l with
  | nil => exact absurd rfl h
  | cons a l => rfl

/-- Claim C5: both embed endpoints reject a present field of the wrong JSON
type with status 400 — /embed when "texts" is present but not a list,
/embed/single when "text" is present but not a string. -/
theorem embed_wrong_type_400 {V : Type} (encode encS : EncodeFn V)
    (env : Option String) (kvs kvs2 : List (String × Json)) (j j2 : Json)
    (hfind : kvs.find? (fun kv => kv.1 == "texts") = some ("texts", j))
    (hj : j.isArr = false)
    (hfind2 : kvs2.find? (fun kv => kv.1 == "text") = some ("text", j2))
    (hj2 : j2.isStr = false) :
    (embed encode env (Except.ok (some (Json.obj kvs)))).1
        = ⟨400, RespBody.jsonError textsNotListMsg⟩
      ∧ (embed_single encS (Except.ok (some (Json.obj kvs2)))).1
        = ⟨400, RespBody.jsonError textNotStringMsg⟩ := by
  have hkvs := isEmpty_false_of_find?_some hfind
  have hkvs2 := isEmpty_false_of_find?_some hfind2
  constructor
  · cases j with
    | arr ts => exact absurd hj (by simp [Json.isArr])
    | null => simp [embed, Json.truthy, pyContains, pyGetItem, hfind, hkvs]
    | bool b => simp [embed, Json.truthy, pyContains, pyGetItem, hfind, hkvs]
    | num n => simp [embed, Json.truthy, pyContains, pyGetItem, hfind, hkvs]
    | str s => simp [embed, Json.truthy, pyContains, pyGetItem, hfind, hkvs]
    | obj o => simp [embed, Json.truthy, pyContains, pyGetItem, hfind, hkvs]
  · cases j2 with
    | str t => exact absurd hj2 (by simp [Json.isStr])
    | null =>
      simp [embed_single, Json.truthy, pyContains, pyGetItem, hfind2, hkvs2]
    | bool b =>
      simp [embed_single, Json.truthy, pyContains, pyGetItem, hfind2, hkvs2]
    | num n =>
      simp [embed_single, Json.truthy, pyContains, pyGetItem, hfind2, hkvs2]
    | arr xs =>
      simp [embed_single, Json.truthy, pyContains, pyGetItem, hfind2, hkvs2]
    | obj o =>
      simp [embed_single, Json.truthy, pyContains, pyGetItem, hfind2, hkvs2]

theorem embed_wrong_type_400_witness :
    (embed (V := Nat) (fun _ _ _ => Except.ok []) none
        (Except.ok (some (Json.obj [("texts", Json.str "not a list")])))).1
        = ⟨400, RespBody.jsonError textsNotListMsg⟩
      ∧ (embed_single (V := Nat) (fun _ _ _ => Except.ok [])
        (Except.ok (some (Json.obj [("text", Json.num 123)])))).1
        = ⟨400, RespBody.jsonError textNotStringMsg⟩ :=
  embed_wrong_type_400 (fun _ _ _ => Except.ok []) (fun _ _ _ => Except.ok [])
    none [("texts", Json.str "not a list")] [("text", Json.num 123)]
    (Json.str "not a list") (Json.num 123) rfl rfl rfl rfl

/-- Claim C7: when /embed invokes the model on a validated non-empty input
list of length n within the batch limit, it passes the full list in one
call with batch_size min(n, 8) and max_length 512, and the request is never
rejected with 400 (long texts are the model's business, the service imposes
no per-text length check — the hypotheses constrain no element of the
list). -/
theorem embed_model_call_args {V : Type} (encode : EncodeFn V)
    (env : Option String) (kvs : List (String × Json)) (ts : List Json)
    (m : Int)
    (hfind : kvs.find? (fun kv => kv.1 == "texts")
      = some ("texts", Json.arr ts))
    (hne : ts ≠ [])
    (henv : getMaxBatch env = Except.ok m)
    (hlen : (ts.length : Int) ≤ m) :
    (embed encode env (Except.ok (some (Json.obj kvs)))).2
        = [⟨ts, some (min ts.length 8), 512⟩]
      ∧ (embed encode env (Except.ok (some (Json.obj kvs)))).1.status ≠ 400 := by
  have hkvs := isEmpty_false_of_find?_some hfind
  have hts := isEmpty_false_of_ne_nil hne
  have hgt : ¬(m < (ts.length : Int)) := not_lt.mpr hlen
  cases henc : encode ts (some (min ts.length 8)) 512 <;>
    constructor <;>
      simp [embed, Json.truthy, pyContains, pyGetItem, hfind, hkvs, hts,
        henv, hgt, henc]

theorem embed_model_call_args_witness :
    (embed (V := Nat) (fun _ _ _ => Except.ok [1, 2])
          none (Except.ok (some (Json.obj [("texts", Json.arr [Json.str "aaaa", Json.str "b"])])))).2
        = [⟨[Json.str "aaaa", Json.str "b"], some (min 2 8), 512⟩]
      ∧ (embed (V := Nat) (fun _ _ _ => Except.ok [1, 2])
          none (Except.ok (some (Json.obj [("texts", Json.arr [Json.str "aaaa", Json.str "b"])])))).1.status
        ≠ 400 :=
  embed_model_call_args (fun _ _ _ => Except.ok [1, 2]) none
    [("texts", Json.arr [Json.str "aaaa", Json.str "b"])]
    [Json.str "aaaa", Json.str "b"] 32 rfl (by simp) rfl (by norm_num)

/-- Claim C8: /embed/single with a string "text" field invokes the model on
the one-element list containing that string, with max_length 512 and no
batch_size argument (and no batch-size check), and returns 200 with the
single vector itself — `RespBody.embedding v`, not a one-element sequence
of vectors. -/
theorem embed_single_vector {V : Type} (encS : EncodeFn V)
    (kvs : List (String × Json)) (t : String) (v : V)
    (hfind : kvs.find? (fun kv => kv.1 == "text") = some ("text", Json.str t))
    (henc : encS [Json.str t] none 512 = Except.ok [v]) :
    (embed_single encS (Except.ok (some (Json.obj kvs)))).1 = ⟨200, RespBody.embedding v⟩
      ∧ (embed_single encS (Except.ok (some (Json.obj kvs)))).2
        = [⟨[Json.str t], none, 512⟩] := by
  have hkvs := isEmpty_false_of_find?_some hfind
  constructor <;>
    simp [embed_single, Json.truthy, pyContains, pyGetItem, hfind, hkvs, henc]

theorem embed_single_vector_witness :
    (embed_single (V := Nat) (fun _ _ _ => Except.ok [99])
          (Except.ok (some (Json.obj [("text", Json.str "hello")])))).1
        = ⟨200, RespBody.embedding 99⟩
      ∧ (embed_single (V := Nat) (fun _ _ _ => Except.ok [99])
          (Except.ok (some (Json.obj [("text", Json.str "hello")])))).2
        = [⟨[Json.str "hello"], none, 512⟩] :=
  embed_single_vector (fun _ _ _ => Except.ok [99])
    [("text", Json.str "hello")] "hello" 99 rfl rfl

/-- Claim C9: /embed validates no element of the "texts" list — any list
within the batch limit passes validation and the model is invoked even when
elements are numbers, null or nested objects (the hypotheses constrain no
element), and when the model then fails the response is a 500 InternalError
carrying the exception message, never a 400 InvalidRequest. -/
theorem embed_no_element_validation {V : Type} (encode : EncodeFn V)
    (env : Option String) (kvs : List (String × Json)) (ts : List Json)
    (m : Int) (e : String)
    (hfind : kvs.find? (fun kv => kv.1 == "texts")
      = some ("texts", Json.arr ts))
    (hne : ts ≠ [])
    (henv : getMaxBatch env = Except.ok m)
    (hlen : (ts.length : Int) ≤ m)
    (hfail : encode ts (some (min ts.length 8)) 512 = Except.error e) :
    (embed encode env (Except.ok (some (Json.obj kvs)))).2
        = [⟨ts, some (min ts.length 8), 512⟩]
      ∧ (embed encode env (Except.ok (some (Json.obj kvs)))).1
        = ⟨500, RespBody.jsonError e⟩ := by
  have hkvs := isEmpty_false_of_find?_some hfind
  have hts := isEmpty_false_of_ne_nil hne
  have hgt : ¬(m < (ts.length : Int)) := not_lt.mpr hlen
  constructor <;>
    simp [embed, Json.truthy, pyContains, pyGetItem, hfind, hkvs, hts, henv,
      hgt, hfail]

theorem embed_no_element_validation_witness :
    (embed (V := Nat) (fun _ _ _ => Except.error "not a string")
          none (Except.ok (some (Json.obj [("texts", Json.arr [Json.num 1, Json.null])])))).2
        = [⟨[Json.num 1, Json.null], some (min 2 8), 512⟩]
      ∧ (embed (V := Nat) (fun _ _ _ => Except.error "not a string")
          none (Except.ok (some (Json.obj [("texts", Json.arr [Json.num 1, Json.null])])))).1
        = ⟨500, RespBody.jsonError "not a string"⟩ :=
  embed_no_element_validation (fun _ _ _ => Except.error "not a string") none
    [("texts", Json.arr [Json.num 1, Json.null])] [Json.num 1, Json.null] 32
    "not a string" rfl (by simp) rfl (by norm_num) rfl

/-- Claim C6: every request to /embed or /embed/single gets an HTTP
response — the handlers are total functions, so no exception escapes and
the process keeps serving — and every response is a 200, a 400, or a 500
whose body is `{"error": <message>}`; moreover with a model whose every
invocation raises exception `e`, a request either never reaches the model
or gets exactly `⟨500, {"error": e}⟩`. -/
theorem embed_failures_request_scoped {V : Type} (encode : EncodeFn V)
    (e : String) (env : Option String) (body : Except String (Option Json)) :
    ((embed encode env body).1.status = 200
      ∨ (embed encode env body).1.status = 400
      ∨ ∃ msg, (embed encode env body).1 = ⟨500, RespBody.jsonError msg⟩)
    ∧ ((embed_single encode body).1.status = 200
      ∨ (embed_single encode body).1.status = 400
      ∨ ∃ msg, (embed_single encode body).1 = ⟨500, RespBody.jsonError msg⟩)
    ∧ ((embed (fun _ _ _ => (Except.error e : Except String (List V)))
          env body).2 = []
      ∨ (embed (fun _ _ _ => (Except.error e : Except String (List V)))
          env body).1 = ⟨500, RespBody.jsonError e⟩)
    ∧ ((embed_single (fun _ _ _ => (Except.error e : Except String (List V)))
          body).2 = []
      ∨ (embed_single (fun _ _ _ => (Except.error e : Except String (List V)))
          body).1 = ⟨500, RespBody.jsonError e⟩) := by
  refine ⟨?_, ?_, ?_, ?_⟩
  · rcases body with e2 | (_ | j)
    · simp [embed]
    · simp [embed]
    · simp only [embed]
      repeat' split
      all_goals simp
  · rcases body with e2 | (_ | j)
    · simp [embed_single]
    · simp [embed_single]
    · simp only [embed_single]
      repeat' split
      all_goals simp
  · rcases body with e2 | (_ | j)
    · simp [embed]
    · simp [embed]
    · simp only [embed]
      repeat' split
      all_goals simp
  · rcases body with e2 | (_ | j)
    · simp [embed_single]
    · simp [embed_single]
    · simp only [embed_single]
      repeat' split
      all_goals simp

/-- Claim C10: the MAX_BATCH_SIZE environment variable is read and parsed
inside the handler on every non-empty /embed request, so its value at
request time is what is enforced: with an unparseable value every non-empty
request gets a 500 from the failed `int()` parse (and no model call), an
empty-list request still gets 200 with empty embeddings, and the same
non-empty request under a parseable value within whose limit it fits goes
through to the model. -/
theorem embed_env_per_request {V : Type} (encode : EncodeFn V)
    (kvs kvs0 : List (String × Json)) (ts : List Json)
    (s s2 e : String) (m2 : Int)
    (hfind : kvs.find? (fun kv => kv.1 == "texts")
      = some ("texts", Json.arr ts))
    (hne : ts ≠ [])
    (hbad : pyIntOfString s = Except.error e)
    (hfind0 : kvs0.find? (fun kv => kv.1 == "texts")
      = some ("texts", Json.arr []))
    (hgood : pyIntOfString s2 = Except.ok m2)
    (hfit : (ts.length : Int) ≤ m2) :
    (embed encode (some s) (Except.ok (some (Json.obj kvs))))
        = (⟨500, RespBody.jsonError e⟩, [])
      ∧ (embed encode (some s) (Except.ok (some (Json.obj kvs0))))
        = (⟨200, RespBody.embeddings []⟩, [])
      ∧ (embed encode (some s2) (Except.ok (some (Json.obj kvs)))).2
        = [⟨ts, some (min ts.length 8), 512⟩] := by
  have hkvs := isEmpty_false_of_find?_some hfind
  have hkvs0 := isEmpty_false_of_find?_some hfind0
  have hts := isEmpty_false_of_ne_nil hne
  have hgt : ¬(m2 < (ts.length : Int)) := not_lt.mpr hfit
  refine ⟨?_, ?_, ?_⟩
  · simp [embed, Json.truthy, pyContains, pyGetItem, hfind, hkvs, hts,
      getMaxBatch, hbad]
  · simp [embed, Json.truthy, pyContains, pyGetItem, hfind0, hkvs0]
  · cases henc : encode ts (some (min ts.length 8)) 512 <;>
      simp [embed, Json.truthy, pyContains, pyGetItem, hfind, hkvs, hts,
        getMaxBatch, hgood, hgt, henc]

theorem embed_env_per_request_witness :
    (embed (V := Nat) (fun _ _ _ => Except.ok [5])
          (some "abc") (Except.ok (some (Json.obj [("texts", Json.arr [Json.str "t"])]))))
        = (⟨500, RespBody.jsonError
            "invalid literal for int() with base 10: \x27abc\x27"⟩, [])
      ∧ (embed (V := Nat) (fun _ _ _ => Except.ok [5])
          (some "abc") (Except.ok (some (Json.obj [("texts", Json.arr [])]))))
        = (⟨200, RespBody.embeddings []⟩, [])
      ∧ (embed (V := Nat) (fun _ _ _ => Except.ok [5])
          (some "1") (Except.ok (some (Json.obj [("texts", Json.arr [Json.str "t"])])))).2
        = [⟨[Json.str "t"], some (min 1 8), 512⟩] :=
  embed_env_per_request (fun _ _ _ => Except.ok [5])
    [("texts", Json.arr [Json.str "t"])] [("texts", Json.arr [])]
    [Json.str "t"] "abc" "1"
    "invalid literal for int() with base 10: \x27abc\x27" 1
    rfl (by simp) rfl rfl rfl (by norm_num)

end BGEServer
